import Mathlib

/-!
Shallow embedding of the Task and Ticket data models of the dispatch
repository (src/dispatch/task/models.py and src/dispatch/ticket/models.py):
the string enumerations, the insert-time resolve_by default, the
before-update resolution-timestamp listener, the derived project attribute,
and the pydantic transfer-shape validation that the excerpt declares.
-/

namespace Dispatch

/-- Timestamps are modelled as integer seconds since the epoch; the
timedelta offsets of the source become second counts. -/
abbrev DateTime := Nat

/-- Seconds in one day, the unit behind the timedelta offsets. -/
def secondsPerDay : Nat := 86400

/-- TaskStatus string enumeration (task/models.py): members open and
resolved. The member named open in the source is named open_ here because
open is a Lean keyword. -/
inductive TaskStatus where
  | open_
  | resolved
deriving DecidableEq, Repr

/-- The literal display string of each TaskStatus member, exactly as the
source declares it. -/
def TaskStatus.value : TaskStatus → String
  | .open_ => "Open"
  | .resolved => "Resolved"

/-- Deserialization of a TaskStatus from a string: a str-backed Enum member
is recovered exactly from its literal value, anything else is rejected. -/
def TaskStatus.ofValue (s : String) : Option TaskStatus :=
  if s = "Open" then some .open_
  else if s = "Resolved" then some .resolved
  else none

/-- TaskSource string enumeration (task/models.py). -/
inductive TaskSource where
  | incident
  | post_incident_review
deriving DecidableEq, Repr

/-- The literal display string of each TaskSource member. -/
def TaskSource.value : TaskSource → String
  | .incident => "Incident"
  | .post_incident_review => "Post Incident Review"

/-- Deserialization of a TaskSource from its literal string. -/
def TaskSource.ofValue (s : String) : Option TaskSource :=
  if s = "Incident" then some .incident
  else if s = "Post Incident Review" then some .post_incident_review
  else none

/-- TaskPriority string enumeration (task/models.py). -/
inductive TaskPriority where
  | low
  | medium
  | high
deriving DecidableEq, Repr

/-- The literal display string of each TaskPriority member. -/
def TaskPriority.value : TaskPriority → String
  | .low => "Low"
  | .medium => "Medium"
  | .high => "High"

/-- Deserialization of a TaskPriority from its literal string. -/
def TaskPriority.ofValue (s : String) : Option TaskPriority :=
  if s = "Low" then some .low
  else if s = "Medium" then some .medium
  else if s = "High" then some .high
  else none

/-- default_resolution_time (task/models.py): reads the source value of the
current insert parameters and returns now plus one day for incident, now
plus seven days for post_incident_review, and now plus one day for any
other value. String comparison with the member values mirrors the equality
of a str-backed Enum. -/
def default_resolution_time (now : DateTime) (source : String) : DateTime :=
  if source = TaskSource.incident.value then now + 1 * secondsPerDay
  else if source = TaskSource.post_incident_review.value then now + 7 * secondsPerDay
  else now + 1 * secondsPerDay

/-- A participant row, opaque here: only identity matters to this excerpt. -/
structure Participant where
  id : Nat
deriving DecidableEq, Repr

/-- A project row, opaque here: only identity matters to this excerpt. -/
structure Project where
  id : Nat
deriving DecidableEq, Repr

/-- An incident row as this excerpt sees it: identity plus its project. -/
structure Incident where
  id : Nat
  project : Project
deriving DecidableEq, Repr

/-- The persisted Task row (task/models.py). source, priority and status
are stored in String columns, with the enum member values as defaults;
resolved_at and resolve_by are nullable DateTime columns; assignees is the
many-to-many participant list. -/
structure Task where
  id : Nat
  resolved_at : Option DateTime := none
  resolve_by : Option DateTime := none
  last_reminder_at : Option DateTime := none
  assignees : List Participant := []
  description : Option String := none
  source : String := TaskSource.incident.value
  priority : String := TaskPriority.low.value
  status : String := TaskStatus.open_.value
  reminders : Bool := true
  incident : Incident
deriving DecidableEq, Repr

/-- The hybrid property project (task/models.py): a Task reads its project
through the owning incident; there is no stored project column. -/
def Task.project (t : Task) : Project :=
  t.incident.project

/-- The before_update listener Task._resolved_at (task/models.py): it
inspects the in-flight row about to be written and, if its status equals
the resolved member value, stamps resolved_at with the current time on that
same pending row; otherwise it leaves the row untouched. -/
def Task.resolvedAtHook (now : DateTime) (target : Task) : Task :=
  if target.status = TaskStatus.resolved.value then
    { target with resolved_at := some now }
  else target

/-- The column values supplied to an INSERT of a Task row; a none field is
one the caller did not supply, to be filled by the column default. -/
structure TaskInsert where
  id : Nat
  incident : Incident
  description : Option String := none
  source : Option String := none
  priority : Option String := none
  status : Option String := none
  resolve_by : Option DateTime := none
  assignees : List Participant := []
deriving DecidableEq, Repr

/-- Creation of a Task row, applying the column defaults declared in
task/models.py: source defaults to the incident member, priority to low,
status to open, reminders to true, and resolve_by (when not supplied) to
default_resolution_time evaluated on the insert parameters. -/
def Task.create (now : DateTime) (p : TaskInsert) : Task :=
  let src := p.source.getD TaskSource.incident.value
  { id := p.id
    incident := p.incident
    description := p.description
    source := src
    priority := p.priority.getD TaskPriority.low.value
    status := p.status.getD TaskStatus.open_.value
    reminders := true
    resolve_by := some (p.resolve_by.getD (default_resolution_time now src))
    resolved_at := none
    last_reminder_at := none
    assignees := p.assignees }

/-- The raw field values offered to construct a Task transfer shape; a none
field is one missing from the input payload. status, source and priority
arrive as strings, assignees as an optional list whose entries may be null,
matching the declared field types of TaskBase and its subclasses. -/
structure TaskShapeInput where
  status : Option String := none
  source : Option String := none
  priority : Option String := none
  assignees : Option (List (Option Participant)) := none
  description : Option String := none
  resolved_at : Option DateTime := none
  resolve_by : Option DateTime := none
deriving DecidableEq, Repr

/-- A validated Task transfer shape, the common fields of TaskBase
(task/models.py): status is a TaskStatus enum member, source and priority
are plain optional strings with no enumeration constraint, and the
remaining fields keep their declared optionality. -/
structure TaskBase where
  status : TaskStatus
  assignees : List (Option Participant)
  source : Option String
  priority : Option String
  description : Option String
  resolved_at : Option DateTime
  resolve_by : Option DateTime
deriving DecidableEq, Repr

/-- The error text pydantic raises for a status value outside the
TaskStatus enumeration, naming the field and the allowed set. -/
def statusEnumError : String :=
  "status: value is not a valid enumeration member; permitted: Open, Resolved"

/-- Validation of the status field against its declared type
TaskStatus with default open: an omitted field takes the default, a string
matching a member value deserializes to it, and any other string is a
validation error. -/
def validateStatus (raw : Option String) : Except String TaskStatus :=
  match raw with
  | none => Except.ok TaskStatus.open_
  | some s =>
    match TaskStatus.ofValue s with
    | some st => Except.ok st
    | none => Except.error statusEnumError

/-- Construction of a TaskCreate shape (also the TaskBase and TaskRead
field behaviour): status is enum-validated with default open, assignees
defaults to the empty list, and source, priority and the other fields are
accepted as given, source and priority being plain optional strings. -/
def TaskCreate.validate (raw : TaskShapeInput) : Except String TaskBase := do
  let st ← validateStatus raw.status
  Except.ok
    { status := st
      assignees := raw.assignees.getD []
      source := raw.source
      priority := raw.priority
      description := raw.description
      resolved_at := raw.resolved_at
      resolve_by := raw.resolve_by }

/-- Construction of a TaskUpdate shape (task/models.py): it redeclares
assignees without a default, so an omitted assignees field is a validation
error, while every other field behaves as in the base shape. -/
def TaskUpdate.validate (raw : TaskShapeInput) : Except String TaskBase := do
  let st ← validateStatus raw.status
  match raw.assignees with
  | none => Except.error "assignees: field required"
  | some l =>
    Except.ok
      { status := st
        assignees := l
        source := raw.source
        priority := raw.priority
        description := raw.description
        resolved_at := raw.resolved_at
        resolve_by := raw.resolve_by }

/-- Modelled from the spec: persisting a Task Update is a full replacement
of the assignee list with the list carried by the update shape (null
entries dropped); the update service itself is outside the excerpt. -/
def applyTaskUpdate (t : Task) (u : TaskBase) : Task :=
  { t with assignees := u.assignees.filterMap (fun a => a) }

/-- Modelled from the spec: INCIDENT_TICKET_DESCRIPTION, the fixed constant
templated description string owned by the external messaging string
catalog (dispatch/messaging/strings, outside the excerpt); its exact text
is consumed as an opaque constant. -/
def INCIDENT_TICKET_DESCRIPTION : String :=
  "This ticket was created by the Dispatch incident automation."

/-- The validator set_description of TicketRead (ticket/models.py),
declared with pre and always: whatever value arrives for the description
field, it returns the fixed constant string. -/
def TicketRead.set_description : Option String → Option String :=
  fun _ => some INCIDENT_TICKET_DESCRIPTION

/-- A TicketRead transfer shape (ticket/models.py): the TicketBase fields
plus the computed description. -/
structure TicketRead where
  resource_id : Option String
  resource_type : Option String
  weblink : Option String
  description : Option String
deriving DecidableEq, Repr

/-- Construction of a TicketRead shape: every field is taken from the
input except description, which passes through the always-run
pre-validator set_description. -/
def TicketRead.build (rid rtype web descr : Option String) : TicketRead :=
  { resource_id := rid
    resource_type := rtype
    weblink := web
    description := TicketRead.set_description descr }

/-- A sample incident for concrete instantiations. -/
def sampleIncident : Incident :=
  { id := 1, project := { id := 7 } }

/-- A sample persisted task attached to sampleIncident. -/
def sampleTask : Task :=
  { id := 1
    incident := sampleIncident
    assignees := [{ id := 5 }]
    status := TaskStatus.resolved.value
    resolved_at := some 100 }

/-- A second sample task on the same incident with different stored
fields. -/
def sampleTask2 : Task :=
  { id := 2
    incident := sampleIncident
    assignees := []
    status := TaskStatus.open_.value
    description := some "follow up" }

/-- C1 (counterexample): the claim that the resolution-stamping rule is
applied only when status transitions to resolved, and never otherwise, is
false: an update of a task whose status already was resolved (no
transition) still has its resolved_at overwritten by the hook. -/
theorem resolvedAtHook_not_transition_only :
    (Task.resolvedAtHook 200 sampleTask).resolved_at = some 200
    ∧ sampleTask.status = TaskStatus.resolved.value
    ∧ sampleTask.resolved_at = some 100
    ∧ ¬ (∀ (now : DateTime) (prior proposed : Task),
          proposed.resolved_at = prior.resolved_at →
          ((proposed.status = TaskStatus.resolved.value →
              (Task.resolvedAtHook now proposed).resolved_at = some now)
           ∧ (proposed.status ≠ TaskStatus.resolved.value →
              (Task.resolvedAtHook now proposed).resolved_at = prior.resolved_at)
           ∧ (¬ (prior.status ≠ TaskStatus.resolved.value
                  ∧ proposed.status = TaskStatus.resolved.value) →
              (Task.resolvedAtHook now proposed).resolved_at = prior.resolved_at))) := by
  refine ⟨by decide, by decide, by decide, ?_⟩
  intro h
  have hno : ¬ (sampleTask.status ≠ TaskStatus.resolved.value
      ∧ sampleTask.status = TaskStatus.resolved.value) := by decide
  have := (h 200 sampleTask sampleTask rfl).2.2 hno
  exact absurd this (by decide)

/-- C1 (amended): the before-update hook stamps resolved_at with the
current time whenever the in-flight status equals resolved, regardless of
the prior status, and leaves resolved_at at its prior value whenever the
in-flight status is anything else. -/
theorem resolvedAtHook_stamps_on_resolved_status :
    ∀ (now : DateTime) (prior proposed : Task),
      proposed.resolved_at = prior.resolved_at →
      ((proposed.status = TaskStatus.resolved.value →
          (Task.resolvedAtHook now proposed).resolved_at = some now)
       ∧ (proposed.status ≠ TaskStatus.resolved.value →
          (Task.resolvedAtHook now proposed).resolved_at = prior.resolved_at)) := by
  intro now prior proposed hr
  constructor
  · intro hs
    simp [Task.resolvedAtHook, hs]
  · intro hs
    simp [Task.resolvedAtHook, hs]
    exact hr

/-- C1 witness: concrete instantiations of the amended statement, one
update carrying status resolved, one carrying status open. -/
theorem resolvedAtHook_stamps_on_resolved_status_witness :
    (Task.resolvedAtHook 200 sampleTask).resolved_at = some 200
    ∧ (Task.resolvedAtHook 5 sampleTask2).resolved_at = sampleTask2.resolved_at :=
  ⟨(resolvedAtHook_stamps_on_resolved_status 200 sampleTask sampleTask rfl).1 rfl,
   (resolvedAtHook_stamps_on_resolved_status 5 sampleTask2 sampleTask2 rfl).2 (by decide)⟩

/-- C2: for a Task created without an explicit resolve_by, the computed
resolve_by is creation time plus one day for source incident, plus seven
days for source post_incident_review, and plus one day for any other or
unknown (including omitted) source value. -/
theorem task_create_resolve_by_default :
    ∀ (now : DateTime) (p : TaskInsert), p.resolve_by = none →
      ((p.source = some TaskSource.incident.value →
          (Task.create now p).resolve_by = some (now + 1 * secondsPerDay))
       ∧ (p.source = some TaskSource.post_incident_review.value →
          (Task.create now p).resolve_by = some (now + 7 * secondsPerDay))
       ∧ (∀ s, p.source = some s → TaskSource.ofValue s = none →
          (Task.create now p).resolve_by = some (now + 1 * secondsPerDay))
       ∧ (p.source = none →
          (Task.create now p).resolve_by = some (now + 1 * secondsPerDay))) := by
  intro now p h
  refine ⟨?_, ?_, ?_, ?_⟩
  · intro hs
    simp [Task.create, hs, h, default_resolution_time, TaskSource.value]
  · intro hs
    simp [Task.create, hs, h, default_resolution_time, TaskSource.value]
  · intro s hs hnone
    have h1 : s ≠ "Incident" := by
      intro hq
      rw [hq] at hnone
      simp [TaskSource.ofValue] at hnone
    have h2 : s ≠ "Post Incident Review" := by
      intro hq
      rw [hq] at hnone
      simp [TaskSource.ofValue] at hnone
    simp [Task.create, hs, h, default_resolution_time, TaskSource.value, h1, h2]
  · intro hs
    simp [Task.create, hs, h, default_resolution_time, TaskSource.value]

/-- C2 witness: concrete creations with omitted source, the
post-incident-review source, and an unknown source string. -/
theorem task_create_resolve_by_default_witness :
    (Task.create 1000 { id := 1, incident := sampleIncident }).resolve_by
        = some (1000 + 1 * secondsPerDay)
    ∧ (Task.create 1000
        { id := 2, incident := sampleIncident,
          source := some "Post Incident Review" }).resolve_by
        = some (1000 + 7 * secondsPerDay)
    ∧ (Task.create 1000
        { id := 3, incident := sampleIncident, source := some "Slack" }).resolve_by
        = some (1000 + 1 * secondsPerDay) :=
  ⟨(task_create_resolve_by_default 1000 { id := 1, incident := sampleIncident }
      rfl).2.2.2 rfl,
   (task_create_resolve_by_default 1000
      { id := 2, incident := sampleIncident, source := some "Post Incident Review" }
      rfl).2.1 rfl,
   (task_create_resolve_by_default 1000
      { id := 3, incident := sampleIncident, source := some "Slack" }
      rfl).2.2.1 "Slack" rfl (by decide)⟩

/-- C3: constructing a TicketRead shape always yields the fixed constant
description, whatever description value is supplied, including the string
anything and no value at all; the supplied string anything is never kept. -/
theorem ticketRead_description_is_constant :
    (∀ rid rtype web v,
        (TicketRead.build rid rtype web v).description
          = some INCIDENT_TICKET_DESCRIPTION)
    ∧ (TicketRead.build none none none (some "anything")).description
        ≠ some "anything"
    ∧ (TicketRead.build none none none none).description
        = some INCIDENT_TICKET_DESCRIPTION := by
  refine ⟨fun rid rtype web v => rfl, by decide, rfl⟩

/-- C4 (counterexample): the claim that an out-of-enumeration source (or
priority) value fails shape validation is false: source and priority are
plain optional string fields, and constructing a create shape with source
Bogus succeeds, the bogus string kept as supplied. -/
theorem taskCreate_accepts_invalid_source :
    TaskSource.ofValue "Bogus" = none
    ∧ TaskCreate.validate { source := some "Bogus" }
        = Except.ok
            { status := TaskStatus.open_, assignees := [], source := some "Bogus",
              priority := none, description := none, resolved_at := none,
              resolve_by := none }
    ∧ ¬ (∀ (raw : TaskShapeInput) (s : String),
          raw.source = some s → TaskSource.ofValue s = none →
          ∃ e, TaskCreate.validate raw = Except.error e) := by
  refine ⟨by decide, rfl, ?_⟩
  intro h
  obtain ⟨e, he⟩ := h { source := some "Bogus" } "Bogus" rfl (by decide)
  rw [show TaskCreate.validate { source := some "Bogus" }
        = Except.ok
            { status := TaskStatus.open_, assignees := [], source := some "Bogus",
              priority := none, description := none, resolved_at := none,
              resolve_by := none } from rfl] at he
  exact Except.noConfusion he

/-- C4 (amended): of the three enumerated fields, only status is
enum-validated at shape construction: an out-of-enumeration status string
fails create and update construction with the enumeration error, while
arbitrary source and priority strings are accepted and kept as supplied. -/
theorem task_shape_enum_validation_status_only :
    ∀ (s : String) (src pri : Option String),
      (TaskStatus.ofValue s = none →
         TaskCreate.validate { status := some s } = Except.error statusEnumError
         ∧ TaskUpdate.validate { status := some s, assignees := some [] }
             = Except.error statusEnumError)
      ∧ (∃ shape,
           TaskCreate.validate { source := src, priority := pri } = Except.ok shape
           ∧ shape.source = src ∧ shape.priority = pri) := by
  intro s src pri
  constructor
  · intro hnone
    constructor
    · simp [TaskCreate.validate, validateStatus, hnone]
      rfl
    · simp [TaskUpdate.validate, validateStatus, hnone]
      rfl
  · exact ⟨_, rfl, rfl, rfl⟩

/-- C4 witness: a concrete out-of-enumeration status is rejected while a
concrete out-of-enumeration source and priority pair is accepted. -/
theorem task_shape_enum_validation_status_only_witness :
    TaskCreate.validate { status := some "Bogus" } = Except.error statusEnumError
    ∧ (∃ shape,
         TaskCreate.validate { source := some "Nonsense", priority := some "ASAP" }
           = Except.ok shape
         ∧ shape.source = some "Nonsense" ∧ shape.priority = some "ASAP") :=
  ⟨((task_shape_enum_validation_status_only "Bogus" none none).1 (by decide)).1,
   (task_shape_enum_validation_status_only "Bogus"
      (some "Nonsense") (some "ASAP")).2⟩

/-- C5: an update shape with assignees omitted fails validation with the
required-field error; one with assignees equal to the empty list succeeds,
carries the empty list, and applying it leaves zero assignees; the two
outcomes are distinct. -/
theorem taskUpdate_assignees_required_empty_ok :
    ∀ (a : Option (List (Option Participant))) (t : Task),
      (a = none →
         TaskUpdate.validate { assignees := a }
           = Except.error "assignees: field required")
      ∧ (a = some [] →
         ∃ shape, TaskUpdate.validate { assignees := a } = Except.ok shape
           ∧ shape.assignees = []
           ∧ (applyTaskUpdate t shape).assignees = [])
      ∧ TaskUpdate.validate { assignees := (none : Option (List (Option Participant))) }
          ≠ TaskUpdate.validate { assignees := some ([] : List (Option Participant)) } := by
  intro a t
  refine ⟨?_, ?_, ?_⟩
  · intro h
    subst h
    rfl
  · intro h
    subst h
    exact ⟨_, rfl, rfl, rfl⟩
  · intro hq
    exact Except.noConfusion hq

/-- C5 witness: the two concrete update payloads, one with assignees
omitted and one with the empty list, instantiated on a sample task that
starts with one assignee. -/
theorem taskUpdate_assignees_required_empty_ok_witness :
    TaskUpdate.validate { assignees := none }
      = Except.error "assignees: field required"
    ∧ (∃ shape,
         TaskUpdate.validate { assignees := some [] } = Except.ok shape
         ∧ shape.assignees = []
         ∧ (applyTaskUpdate sampleTask shape).assignees = []) :=
  ⟨(taskUpdate_assignees_required_empty_ok none sampleTask).1 rfl,
   (taskUpdate_assignees_required_empty_ok (some []) sampleTask).2.1 rfl⟩

/-- C6: an update that moves status from resolved back to open leaves
resolved_at unchanged from its prior value: reopening preserves the old
resolution timestamp, the hook never clears it. -/
theorem resolvedAtHook_preserves_resolved_at_on_reopen :
    ∀ (now : DateTime) (prior proposed : Task),
      prior.status = TaskStatus.resolved.value →
      proposed.status = TaskStatus.open_.value →
      proposed.resolved_at = prior.resolved_at →
      (Task.resolvedAtHook now proposed).resolved_at = prior.resolved_at := by
  intro now prior proposed hp hs hr
  simp [Task.resolvedAtHook, hs]
  exact hr

/-- C6 witness: reopening the resolved sample task at a later time keeps
its stored resolution timestamp. -/
theorem resolvedAtHook_preserves_resolved_at_on_reopen_witness :
    (Task.resolvedAtHook 300
        { sampleTask with status := TaskStatus.open_.value }).resolved_at
      = some 100 :=
  resolvedAtHook_preserves_resolved_at_on_reopen 300 sampleTask
    { sampleTask with status := TaskStatus.open_.value } rfl rfl rfl

/-- C7: the three enumerations carry exactly the literal display strings
Open, Resolved, Incident, Post Incident Review, Low, Medium, High, and
each member deserializes back from exactly its own literal string. -/
theorem task_enums_literal_display_strings :
    (TaskStatus.open_.value = "Open"
     ∧ TaskStatus.resolved.value = "Resolved"
     ∧ TaskSource.incident.value = "Incident"
     ∧ TaskSource.post_incident_review.value = "Post Incident Review"
     ∧ TaskPriority.low.value = "Low"
     ∧ TaskPriority.medium.value = "Medium"
     ∧ TaskPriority.high.value = "High")
    ∧ (∀ s : TaskStatus, TaskStatus.ofValue s.value = some s)
    ∧ (∀ s : TaskSource, TaskSource.ofValue s.value = some s)
    ∧ (∀ p : TaskPriority, TaskPriority.ofValue p.value = some p) := by
  refine ⟨by decide, ?_, ?_, ?_⟩
  · intro s
    cases s <;> rfl
  · intro s
    cases s <;> rfl
  · intro p
    cases p <;> rfl

/-- C8: the derived project attribute of a Task is read through its owning
incident, and it depends on nothing but the incident relation: two tasks
with the same incident have the same project, whatever their stored
fields. -/
theorem task_project_reads_through_incident :
    (∀ t : Task, Task.project t = t.incident.project)
    ∧ (∀ t1 t2 : Task, t1.incident = t2.incident →
        Task.project t1 = Task.project t2) := by
  constructor
  · intro t
    rfl
  · intro t1 t2 h
    simp [Task.project, h]

/-- C8 witness: the two sample tasks share sampleIncident, so both read
its project. -/
theorem task_project_reads_through_incident_witness :
    Task.project sampleTask = sampleIncident.project
    ∧ Task.project sampleTask = Task.project sampleTask2 :=
  ⟨task_project_reads_through_incident.1 sampleTask,
   task_project_reads_through_incident.2 sampleTask sampleTask2 rfl⟩

/-- C9: every before-update event on a task whose in-flight status equals
resolved overwrites resolved_at with the current time, so a later update
of an already-resolved task moves its resolution timestamp whenever the
current time differs from the stored one. -/
theorem resolvedAtHook_restamps_already_resolved :
    ∀ (now : DateTime) (target : Task),
      target.status = TaskStatus.resolved.value →
      ((Task.resolvedAtHook now target).resolved_at = some now
       ∧ ∀ t0, target.resolved_at = some t0 → t0 ≠ now →
           (Task.resolvedAtHook now target).resolved_at ≠ target.resolved_at) := by
  intro now target h
  constructor
  · simp [Task.resolvedAtHook, h]
  · intro t0 h0 hne
    simp [Task.resolvedAtHook, h, h0]
    exact fun hc => hne hc.symm

/-- C9 witness: re-updating the sample task, already resolved at time 100,
at time 200 moves its resolution timestamp to 200. -/
theorem resolvedAtHook_restamps_already_resolved_witness :
    (Task.resolvedAtHook 200 sampleTask).resolved_at = some 200
    ∧ (Task.resolvedAtHook 200 sampleTask).resolved_at ≠ sampleTask.resolved_at :=
  ⟨(resolvedAtHook_restamps_already_resolved 200 sampleTask rfl).1,
   (resolvedAtHook_restamps_already_resolved 200 sampleTask rfl).2 100 rfl
     (by decide)⟩

/-- C10: an update shape with the status field omitted validates
successfully and carries status open, the inherited default, rather than
any no-change marker. -/
theorem taskUpdate_omitted_status_defaults_open :
    ∀ (raw : TaskShapeInput) (l : List (Option Participant)),
      raw.status = none → raw.assignees = some l →
      ∃ shape, TaskUpdate.validate raw = Except.ok shape
        ∧ shape.status = TaskStatus.open_ := by
  intro raw l hs ha
  refine ⟨{ status := TaskStatus.open_, assignees := l, source := raw.source,
            priority := raw.priority, description := raw.description,
            resolved_at := raw.resolved_at, resolve_by := raw.resolve_by },
          ?_, rfl⟩
  simp [TaskUpdate.validate, validateStatus, hs, ha]
  rfl

/-- C10 witness: the concrete update payload carrying only an empty
assignee list, status omitted, validates to a shape with status open. -/
theorem taskUpdate_omitted_status_defaults_open_witness :
    ∃ shape, TaskUpdate.validate { assignees := some [] } = Except.ok shape
      ∧ shape.status = TaskStatus.open_ :=
  taskUpdate_omitted_status_defaults_open { assignees := some [] } [] rfl rfl

end Dispatch
